import Mathlib

/-!
Verification development for a Go NES emulator (PPU, mappers, bus,
controller).  Machine integers are modelled as `Nat` with explicit
wrapping (`% 256`, `% 65536`, masks) at the points where the Go code's
fixed-width types make overflow observable; the signed scanline counter
is an `Int`.  Byte arrays are modelled as total functions `Nat → Nat`
updated pointwise.  The polymorphic `cartridge.Mapper` interface is
modelled by a record of operations `MapperOps` over an abstract mapper
state type, mirroring Go's interface dispatch.
-/

namespace NESEmu

/-- Wrap to 8 bits, the semantics of Go's `uint8` conversions. -/
def u8 (n : Nat) : Nat := n % 256

/-- Wrap to 16 bits, the semantics of Go's `uint16` conversions. -/
def u16 (n : Nat) : Nat := n % 65536

/-- Go `uint16` subtraction `a - b` (wraps modulo 2^16). -/
def u16sub (a b : Nat) : Nat := (a % 65536 + 65536 - b % 65536) % 65536

/-- Go conversion `uint16(x)` of a signed 16-bit value (two's complement). -/
def intToU16 (s : Int) : Nat := (s % 65536).toNat

/-- Pointwise update of a byte-array model (`arr[i] = v`). -/
def upd (f : Nat → Nat) (i v : Nat) : Nat → Nat := fun j => if j = i then v else f j

/-! ## PPU register helpers (pkg/ppu/registers.go)

Each Go register struct wraps a single byte; we model the byte directly
and the accessor methods as functions on it. -/

namespace PPUControl

/-- PPUCTRL bit 0: nametable X. -/
def NametableX (r : Nat) : Nat := r &&& 1

/-- PPUCTRL bit 1: nametable Y. -/
def NametableY (r : Nat) : Nat := (r >>> 1) &&& 1

/-- PPUCTRL bit 2: VRAM address increment, 1 or 32. -/
def IncrementMode (r : Nat) : Nat := if (r >>> 2) &&& 1 != 0 then 32 else 1

/-- PPUCTRL bit 3: sprite pattern table base. -/
def SpritePatternTable (r : Nat) : Nat := if (r >>> 3) &&& 1 != 0 then 0x1000 else 0x0000

/-- PPUCTRL bit 4: background pattern table base. -/
def BackgroundPatternTable (r : Nat) : Nat := if (r >>> 4) &&& 1 != 0 then 0x1000 else 0x0000

/-- PPUCTRL bit 5: sprite size (0 = 8x8, 1 = 8x16). -/
def SpriteSize (r : Nat) : Nat := (r >>> 5) &&& 1

/-- PPUCTRL bit 7: NMI enable. -/
def EnableNMI (r : Nat) : Bool := (r >>> 7) &&& 1 != 0

end PPUControl

namespace PPUMask

/-- PPUMASK bit 1: show background in the leftmost 8 pixels. -/
def RenderBackgroundLeft (r : Nat) : Bool := (r >>> 1) &&& 1 != 0

/-- PPUMASK bit 2: show sprites in the leftmost 8 pixels. -/
def RenderSpritesLeft (r : Nat) : Bool := (r >>> 2) &&& 1 != 0

/-- PPUMASK bit 3: background rendering enabled. -/
def RenderBackground (r : Nat) : Bool := (r >>> 3) &&& 1 != 0

/-- PPUMASK bit 4: sprite rendering enabled. -/
def RenderSprites (r : Nat) : Bool := (r >>> 4) &&& 1 != 0

/-- Rendering enabled overall: background OR sprites. -/
def IsRenderingEnabled (r : Nat) : Bool := RenderBackground r || RenderSprites r

end PPUMask

namespace PPUStatus

/-- Set or clear the VBlank flag (bit 7); Go clears with `&= ^0x80`. -/
def SetVBlank (r : Nat) (b : Bool) : Nat := if b then r ||| 0x80 else r &&& 0x7F

/-- VBlank flag (bit 7). -/
def VBlank (r : Nat) : Bool := (r >>> 7) &&& 1 != 0

/-- Set or clear the sprite-0-hit flag (bit 6). -/
def SetSprite0Hit (r : Nat) (b : Bool) : Nat := if b then r ||| 0x40 else r &&& 0xBF

/-- Sprite-0-hit flag (bit 6). -/
def Sprite0Hit (r : Nat) : Bool := (r >>> 6) &&& 1 != 0

/-- Set or clear the sprite-overflow flag (bit 5). -/
def SetSpriteOverflow (r : Nat) (b : Bool) : Nat := if b then r ||| 0x20 else r &&& 0xDF

/-- Sprite-overflow flag (bit 5). -/
def SpriteOverflow (r : Nat) : Bool := (r >>> 5) &&& 1 != 0

end PPUStatus

/-! ## Loopy scroll registers (pkg/ppu/registers.go, LoopyRegister)

The register is a 15-bit value `yyy NN YYYYY XXXXX`; `Set` masks to 15
bits, `Get` is the identity on the stored value. -/

namespace LoopyRegister

/-- Store a value into the 15-bit register. -/
def Set (v : Nat) : Nat := v &&& 0x7FFF

/-- Coarse X scroll (bits 0-4). -/
def CoarseX (r : Nat) : Nat := r &&& 0x001F

/-- Set coarse X (bits 0-4). -/
def SetCoarseX (r v : Nat) : Nat := (r &&& 0x7FE0) ||| (v &&& 0x001F)

/-- Coarse Y scroll (bits 5-9). -/
def CoarseY (r : Nat) : Nat := (r &&& 0x03E0) >>> 5

/-- Set coarse Y (bits 5-9). -/
def SetCoarseY (r v : Nat) : Nat := (r &&& 0x7C1F) ||| ((v &&& 0x001F) <<< 5)

/-- Nametable X select (bit 10). -/
def NametableX (r : Nat) : Nat := (r &&& 0x0400) >>> 10

/-- Set nametable X (bit 10); Go clears with `&= ^uint16(0x0400)`. -/
def SetNametableX (r v : Nat) : Nat := if v != 0 then r ||| 0x0400 else r &&& 0xFBFF

/-- Nametable Y select (bit 11). -/
def NametableY (r : Nat) : Nat := (r &&& 0x0800) >>> 11

/-- Set nametable Y (bit 11). -/
def SetNametableY (r v : Nat) : Nat := if v != 0 then r ||| 0x0800 else r &&& 0xF7FF

/-- Fine Y scroll (bits 12-14). -/
def FineY (r : Nat) : Nat := (r &&& 0x7000) >>> 12

/-- Set fine Y (bits 12-14). -/
def SetFineY (r v : Nat) : Nat := (r &&& 0x0FFF) ||| ((v &&& 0x0007) <<< 12)

/-- Increment horizontal scroll: coarse X wraps at 31 flipping nametable X. -/
def IncrementX (r : Nat) : Nat :=
  if CoarseX r = 31 then
    let r1 := SetCoarseX r 0
    SetNametableX r1 (NametableX r1 ^^^ 1)
  else
    SetCoarseX r (CoarseX r + 1)

/-- Increment vertical scroll: fine Y carries into coarse Y; coarse Y
wraps 29 to 0 flipping nametable Y, and 31 to 0 without flipping. -/
def IncrementY (r : Nat) : Nat :=
  if FineY r < 7 then
    SetFineY r (FineY r + 1)
  else
    let r1 := SetFineY r 0
    let y := CoarseY r1
    if y = 29 then
      let r2 := SetNametableY r1 (NametableY r1 ^^^ 1)
      SetCoarseY r2 0
    else if y = 31 then
      SetCoarseY r1 0
    else
      SetCoarseY r1 (y + 1)

/-- Copy coarse X and nametable X from `src`. -/
def TransferX (r src : Nat) : Nat := (r &&& 0x7BE0) ||| (src &&& 0x041F)

/-- Copy coarse Y, fine Y and nametable Y from `src`. -/
def TransferY (r src : Nat) : Nat := (r &&& 0x041F) ||| (src &&& 0x7BE0)

end LoopyRegister

/-! ## Mapper interface (pkg/cartridge/mapper.go)

Go's `cartridge.Mapper` interface, as a record of operations over an
abstract mapper-state type `μ`.  `Scanline` is part of the interface
(MMC3 clocks its IRQ counter there); whether anything ever invokes it is
a property of the embedded code. -/

structure MapperOps (μ : Type) where
  ReadPRG : μ → Nat → Nat
  WritePRG : μ → Nat → Nat → μ
  ReadCHR : μ → Nat → Nat
  WriteCHR : μ → Nat → Nat → μ
  Scanline : μ → μ

/-! ## PPU state (pkg/ppu/sprites.go, struct PPU)

One field per Go struct field.  The Go PPU stores a pointer to the
mapper; here the mapper state is held in the `mapper` field (the single
source of truth for the aliased pointer held by the bus). -/

structure PPU (μ : Type) where
  nametable : Nat → Nat
  paletteRAM : Nat → Nat
  oam : Nat → Nat
  oamAddress : Nat
  control : Nat
  mask : Nat
  status : Nat
  oamData : Nat
  ppuScroll : Nat
  ppuAddr : Nat
  ppuData : Nat
  vramAddress : Nat
  tempVRAMAddress : Nat
  fineX : Nat
  writeLatch : Bool
  readBuffer : Nat
  scanline : Int
  cycle : Nat
  frame : Nat
  oddFrame : Bool
  frameComplete : Bool
  bgNextTileID : Nat
  bgNextTileAttrib : Nat
  bgNextTileLSB : Nat
  bgNextTileMSB : Nat
  bgShifterPatternLo : Nat
  bgShifterPatternHi : Nat
  bgShifterAttribLo : Nat
  bgShifterAttribHi : Nat
  secondaryOAM : Nat → Nat
  spriteCount : Nat
  sprite0Present : Bool
  spriteShifterPatternLo : Nat → Nat
  spriteShifterPatternHi : Nat → Nat
  spriteAttributes : Nat → Nat
  spritePositions : Nat → Nat
  mapper : μ
  mirroringMode : Nat
  frameBuffer : Nat → Nat
  nmiOutput : Bool

/-- Number of bytes in the PPU's internal nametable RAM (`nametable [2048]uint8`). -/
def nametableSize : Nat := 2048

/-- Timing constants (NTSC), from pkg/ppu/sprites.go. -/
def CyclesPerScanline : Nat := 341

/-- The constant `ScanlinesPerFrame = 262` from pkg/ppu/sprites.go. -/
def ScanlinesPerFrame : Int := 262

/-- Screen width in pixels. -/
def ScreenWidth : Nat := 256

/-- Screen height in pixels. -/
def ScreenHeight : Nat := 240

namespace PPU

variable {μ : Type}

/-- Nametable mirroring (pkg/ppu/sprites.go, `mirrorNametableAddress`).
The Go method reads the receiver's `mirroringMode`; it is passed here as
the first argument.  Go's `addr - 0x2000` is `uint16` subtraction. -/
def mirrorNametableAddress (mode addr : Nat) : Nat :=
  let addr := u16sub addr 0x2000 % 0x1000
  let table := addr / 0x0400
  let offset := addr % 0x0400
  if mode = 1 then addr % 0x0800                 -- MirrorVertical
  else if mode = 0 then (table / 2) * 0x0400 + offset -- MirrorHorizontal
  else if mode = 2 then offset                   -- MirrorSingleLow
  else if mode = 3 then 0x0400 + offset          -- MirrorSingleHigh
  else if mode = 4 then addr                     -- MirrorFourScreen
  else 0

/-- Palette mirroring (pkg/ppu/sprites.go, `mirrorPaletteAddress`). -/
def mirrorPaletteAddress (addr : Nat) : Nat :=
  let addr := u16sub addr 0x3F00 % 32
  if 16 ≤ addr ∧ addr % 4 = 0 then addr - 16 else addr

/-- PPU-bus read (pkg/ppu/sprites.go, `ppuRead`).  The emulator always
has a mapper connected, so Go's nil-check is not represented. -/
def ppuRead (ops : MapperOps μ) (p : PPU μ) (addr : Nat) : Nat :=
  let addr := addr &&& 0x3FFF
  if addr < 0x2000 then ops.ReadCHR p.mapper addr
  else if addr < 0x3F00 then p.nametable (mirrorNametableAddress p.mirroringMode addr)
  else if addr < 0x4000 then p.paletteRAM (mirrorPaletteAddress addr)
  else 0

/-- PPU-bus write (pkg/ppu/sprites.go, `ppuWrite`). -/
def ppuWrite (ops : MapperOps μ) (p : PPU μ) (addr value : Nat) : PPU μ :=
  let addr := addr &&& 0x3FFF
  if addr < 0x2000 then { p with mapper := ops.WriteCHR p.mapper addr value }
  else if addr < 0x3F00 then
    { p with nametable := upd p.nametable (mirrorNametableAddress p.mirroringMode addr) value }
  else if addr < 0x4000 then
    { p with paletteRAM := upd p.paletteRAM (mirrorPaletteAddress addr) value }
  else p

end PPU

/-- Bit reversal of a byte (pkg/ppu/sprites.go, `reverseByte`). -/
def reverseByte (b : Nat) : Nat :=
  let b := ((b &&& 0xF0) >>> 4) ||| ((b &&& 0x0F) <<< 4)
  let b := ((b &&& 0xCC) >>> 2) ||| ((b &&& 0x33) <<< 2)
  ((b &&& 0xAA) >>> 1) ||| ((b &&& 0x55) <<< 1)

namespace PPU

variable {μ : Type}

/-- Load the background shifters from the next-tile latches
(pkg/ppu/rendering.go, `loadBackgroundShifters`). -/
def loadBackgroundShifters (p : PPU μ) : PPU μ :=
  let p := { p with bgShifterPatternLo := (p.bgShifterPatternLo &&& 0xFF00) ||| p.bgNextTileLSB }
  let p := { p with bgShifterPatternHi := (p.bgShifterPatternHi &&& 0xFF00) ||| p.bgNextTileMSB }
  let p := { p with bgShifterAttribLo :=
    if p.bgNextTileAttrib &&& 0x01 != 0 then (p.bgShifterAttribLo &&& 0xFF00) ||| 0x00FF
    else p.bgShifterAttribLo &&& 0xFF00 }
  { p with bgShifterAttribHi :=
    if p.bgNextTileAttrib &&& 0x02 != 0 then (p.bgShifterAttribHi &&& 0xFF00) ||| 0x00FF
    else p.bgShifterAttribHi &&& 0xFF00 }

/-- Shift the background shifters one bit left when background rendering
is enabled (pkg/ppu/rendering.go, `updateShifters`).  The Go shifters
are `uint16`, hence the mask after the shift. -/
def updateShifters (p : PPU μ) : PPU μ :=
  if PPUMask.RenderBackground p.mask then
    { p with
      bgShifterPatternLo := (p.bgShifterPatternLo <<< 1) &&& 0xFFFF
      bgShifterPatternHi := (p.bgShifterPatternHi <<< 1) &&& 0xFFFF
      bgShifterAttribLo := (p.bgShifterAttribLo <<< 1) &&& 0xFFFF
      bgShifterAttribHi := (p.bgShifterAttribHi <<< 1) &&& 0xFFFF }
  else p

/-- Background pixel and palette extraction, the first half of
pkg/ppu/rendering.go `renderPixel`: both are 0 unless background
rendering is enabled, otherwise two bits are selected from the pattern
and attribute shifters at offset `fineX`. -/
def bgPixelPalette (p : PPU μ) : Nat × Nat :=
  if PPUMask.RenderBackground p.mask then
    let bitMux := 0x8000 >>> p.fineX
    let p0 := if p.bgShifterPatternLo &&& bitMux != 0 then 1 else 0
    let p1 := if p.bgShifterPatternHi &&& bitMux != 0 then 1 else 0
    let pal0 := if p.bgShifterAttribLo &&& bitMux != 0 then 1 else 0
    let pal1 := if p.bgShifterAttribHi &&& bitMux != 0 then 1 else 0
    ((p1 <<< 1) ||| p0, (pal1 <<< 1) ||| pal0)
  else (0, 0)

/-- The scan over the sprites of the current scanline in
pkg/ppu/sprites.go `renderSprites`; `fuel` counts the remaining loop
iterations (`spriteCount` at the top call), `i` is the sprite slot.
Returns (pixel, palette, priority, isSprite0). -/
def renderSpritesLoop (p : PPU μ) (x : Nat) : Nat → Nat → Nat × Nat × Bool × Bool
  | _, 0 => (0, 0, false, false)
  | i, fuel + 1 =>
    let offset : Int := (x : Int) - (p.spritePositions i : Int)
    if 0 ≤ offset ∧ offset < 8 then
      let shift := 7 - offset.toNat
      let pixelLow := (p.spriteShifterPatternLo i >>> shift) &&& 0x01
      let pixelHigh := (p.spriteShifterPatternHi i >>> shift) &&& 0x01
      let pixelValue := (pixelHigh <<< 1) ||| pixelLow
      if pixelValue = 0 then renderSpritesLoop p x (i + 1) fuel
      else
        let spritePalette := p.spriteAttributes i &&& 0x03
        let spritePriority := p.spriteAttributes i &&& 0x20 == 0
        let sprite0 := i == 0 && p.sprite0Present
        (pixelValue, spritePalette, spritePriority, sprite0)
    else renderSpritesLoop p x (i + 1) fuel

/-- Sprite pixel lookup at screen column `x` (pkg/ppu/sprites.go,
`renderSprites`).  Returns (pixel, palette, priority, isSprite0). -/
def renderSprites (p : PPU μ) (x : Nat) : Nat × Nat × Bool × Bool :=
  if ¬ PPUMask.RenderSprites p.mask then (0, 0, false, false)
  else if x < 8 ∧ ¬ PPUMask.RenderSpritesLeft p.mask then (0, 0, false, false)
  else renderSpritesLoop p x 0 p.spriteCount

/-- Final framebuffer store of `renderPixel`: the palette-RAM lookup at
`0x3F00 + ((finalPalette << 2) | (finalPixel & 3))` (the index is formed
in `uint8`), masked to 6 bits. -/
def writePixelFB (ops : MapperOps μ) (p : PPU μ) (x y pix pal : Nat) : PPU μ :=
  let address := u8 ((pal <<< 2) ||| (pix &&& 0x03))
  let colorIndex := ppuRead ops p (0x3F00 + address) &&& 0x3F
  { p with frameBuffer := upd p.frameBuffer (y * ScreenWidth + x) colorIndex }

/-- The sprite-0-hit detection block inside the both-pixels-visible
branch of `renderPixel`: the hit bit is set when the pixel comes from
sprite 0, `1 <= x < 255`, both rendering bits are on, and the left edge
is not masked off for the background. -/
def sprite0HitUpdate (p : PPU μ) (x : Nat) (isSprite0 : Bool) : PPU μ :=
  if isSprite0 ∧ x < 255 ∧ 1 ≤ x then
    if PPUMask.RenderBackground p.mask ∧ PPUMask.RenderSprites p.mask then
      if PPUMask.RenderBackgroundLeft p.mask ∨ 8 ≤ x then
        { p with status := PPUStatus.SetSprite0Hit p.status true }
      else p
    else p
  else p

/-- Pixel composition (pkg/ppu/rendering.go, `renderPixel`).  In Go,
`x := p.cycle - 1` is a `uint16` subtraction, so `cycle = 0` yields
65535 and takes the early return. -/
def renderPixel (ops : MapperOps μ) (p : PPU μ) : PPU μ :=
  let x := u16sub p.cycle 1
  let y := intToU16 p.scanline
  if ScreenWidth ≤ x ∨ ScreenHeight ≤ y then p
  else if ¬ PPUMask.IsRenderingEnabled p.mask then
    let backdropColor := ppuRead ops p 0x3F00 &&& 0x3F
    { p with frameBuffer := upd p.frameBuffer (y * ScreenWidth + x) backdropColor }
  else
    let bgr := bgPixelPalette p
    let bgPixel := bgr.1
    let bgPalette := bgr.2
    let sres := renderSprites p x
    let spritePixel := sres.1
    let spritePalette := sres.2.1
    let spritePriority := sres.2.2.1
    let isSprite0 := sres.2.2.2
    if bgPixel = 0 ∧ spritePixel = 0 then
      writePixelFB ops p x y 0 0
    else if bgPixel = 0 ∧ 0 < spritePixel then
      writePixelFB ops p x y spritePixel (spritePalette + 4)
    else if 0 < bgPixel ∧ spritePixel = 0 then
      writePixelFB ops p x y bgPixel bgPalette
    else
      let finalPx : Nat × Nat :=
        if spritePriority then (spritePixel, spritePalette + 4) else (bgPixel, bgPalette)
      let p := sprite0HitUpdate p x isSprite0
      writePixelFB ops p x y finalPx.1 finalPx.2

/-- The per-sprite body of sprite evaluation (pkg/ppu/sprites.go,
`spriteEvaluation` main loop); `i` is the OAM sprite index, `fuel` the
remaining iterations (64 at the top call).  Go's
`uint16(p.scanline) - spriteY` is wrapping 16-bit subtraction. -/
def spriteEvalLoop (spriteHeight : Nat) : Nat → Nat → PPU μ → PPU μ
  | _, 0, p => p
  | i, fuel + 1, p =>
    let oamIndex := i * 4
    let spriteY := p.oam oamIndex
    let diff := u16sub (intToU16 p.scanline) spriteY
    if diff < spriteHeight then
      if 8 ≤ p.spriteCount then
        { p with status := PPUStatus.SetSpriteOverflow p.status true }
      else
        let si := p.spriteCount * 4
        let sec := upd (upd (upd (upd p.secondaryOAM
          si (p.oam oamIndex))
          (si + 1) (p.oam (oamIndex + 1)))
          (si + 2) (p.oam (oamIndex + 2)))
          (si + 3) (p.oam (oamIndex + 3))
        let p := { p with
          secondaryOAM := sec
          sprite0Present := if i = 0 then true else p.sprite0Present
          spriteCount := p.spriteCount + 1 }
        spriteEvalLoop spriteHeight (i + 1) fuel p
    else spriteEvalLoop spriteHeight (i + 1) fuel p

/-- Sprite evaluation for the next scanline (pkg/ppu/sprites.go,
`spriteEvaluation`).  The clearing loop over secondary OAM is the
constant-0xFF array. -/
def spriteEvaluation (p : PPU μ) : PPU μ :=
  let p := { p with secondaryOAM := fun _ => 0xFF, spriteCount := 0, sprite0Present := false }
  if ¬ PPUMask.IsRenderingEnabled p.mask then p
  else
    let spriteHeight := if PPUControl.SpriteSize p.control != 0 then 16 else 8
    spriteEvalLoop spriteHeight 0 64 p

/-- The per-sprite body of sprite pattern fetching (pkg/ppu/sprites.go,
`spriteFetching` main loop); `fuel` is `spriteCount` at the top call. -/
def spriteFetchLoop (ops : MapperOps μ) (spriteHeight spritePatternTable : Nat) :
    Nat → Nat → PPU μ → PPU μ
  | _, 0, p => p
  | i, fuel + 1, p =>
    let secondaryIndex := i * 4
    let spriteY := p.secondaryOAM secondaryIndex
    let tileIndex := p.secondaryOAM (secondaryIndex + 1)
    let attributes := p.secondaryOAM (secondaryIndex + 2)
    let spriteX := p.secondaryOAM (secondaryIndex + 3)
    let p := { p with
      spriteAttributes := upd p.spriteAttributes i attributes
      spritePositions := upd p.spritePositions i spriteX }
    let spriteRow := u16sub (intToU16 p.scanline) spriteY
    let spriteRow := if attributes &&& 0x80 != 0 then u16sub (spriteHeight - 1) spriteRow
      else spriteRow
    let patternAddress :=
      if spriteHeight = 16 then
        if spriteRow < 8 then
          ((tileIndex &&& 0x01) <<< 12) ||| ((tileIndex &&& 0xFE) <<< 4) ||| (spriteRow &&& 0x07)
        else
          ((tileIndex &&& 0x01) <<< 12) ||| (((tileIndex &&& 0xFE) + 1) <<< 4) |||
            (u16sub spriteRow 8 &&& 0x07)
      else
        spritePatternTable ||| (tileIndex <<< 4) ||| (spriteRow &&& 0x07)
    let patternLow := ppuRead ops p patternAddress
    let patternHigh := ppuRead ops p (patternAddress + 8)
    let patternLow := if attributes &&& 0x40 != 0 then reverseByte patternLow else patternLow
    let patternHigh := if attributes &&& 0x40 != 0 then reverseByte patternHigh else patternHigh
    let p := { p with
      spriteShifterPatternLo := upd p.spriteShifterPatternLo i patternLow
      spriteShifterPatternHi := upd p.spriteShifterPatternHi i patternHigh }
    spriteFetchLoop ops spriteHeight spritePatternTable (i + 1) fuel p

/-- Sprite pattern fetching (pkg/ppu/sprites.go, `spriteFetching`). -/
def spriteFetching (ops : MapperOps μ) (p : PPU μ) : PPU μ :=
  let spriteHeight := if PPUControl.SpriteSize p.control != 0 then 16 else 8
  let spritePatternTable := PPUControl.SpritePatternTable p.control
  spriteFetchLoop ops spriteHeight spritePatternTable 0 p.spriteCount p

/-- The 8-cycle background fetch pattern of `PPU.Clock`, the switch on
`(cycle - 1) % 8`. -/
def bgFetchBody (ops : MapperOps μ) (p : PPU μ) : PPU μ :=
  match (p.cycle - 1) % 8 with
  | 0 =>
    let p := loadBackgroundShifters p
    { p with bgNextTileID := ppuRead ops p (0x2000 ||| (p.vramAddress &&& 0x0FFF)) }
  | 2 =>
    let address := 0x23C0 |||
      (LoopyRegister.NametableY p.vramAddress <<< 11) |||
      (LoopyRegister.NametableX p.vramAddress <<< 10) |||
      ((LoopyRegister.CoarseY p.vramAddress >>> 2) <<< 3) |||
      (LoopyRegister.CoarseX p.vramAddress >>> 2)
    let attrib := ppuRead ops p address
    let attrib := if LoopyRegister.CoarseY p.vramAddress &&& 0x02 != 0 then attrib >>> 4 else attrib
    let attrib := if LoopyRegister.CoarseX p.vramAddress &&& 0x02 != 0 then attrib >>> 2 else attrib
    { p with bgNextTileAttrib := attrib &&& 0x03 }
  | 4 =>
    let address := PPUControl.BackgroundPatternTable p.control |||
      (p.bgNextTileID <<< 4) ||| LoopyRegister.FineY p.vramAddress
    { p with bgNextTileLSB := ppuRead ops p address }
  | 6 =>
    let address := PPUControl.BackgroundPatternTable p.control |||
      (p.bgNextTileID <<< 4) ||| LoopyRegister.FineY p.vramAddress
    { p with bgNextTileMSB := ppuRead ops p (address + 8) }
  | 7 =>
    if PPUMask.IsRenderingEnabled p.mask then
      { p with vramAddress := LoopyRegister.IncrementX p.vramAddress }
    else p
  | _ => p

/-- One cycle inside the background-rendering window: the per-cycle
shifter update followed by the 8-cycle fetch pattern. -/
def bgFetchCycle (ops : MapperOps μ) (p : PPU μ) : PPU μ :=
  bgFetchBody ops (updateShifters p)

/-- Flag clearing at the start of the pre-render scanline
(`scanline == -1 && cycle == 1` in `PPU.Clock`). -/
def clearFlagsStep (p : PPU μ) : PPU μ :=
  if p.scanline = -1 ∧ p.cycle = 1 then
    let p := { p with status := PPUStatus.SetVBlank p.status false }
    let p := { p with status := PPUStatus.SetSprite0Hit p.status false }
    let p := { p with status := PPUStatus.SetSpriteOverflow p.status false }
    { p with frameComplete := false }
  else p

/-- The background-rendering cycle window of `PPU.Clock`
(`(cycle >= 2 && cycle < 258) || (cycle >= 321 && cycle < 338)`). -/
def bgWindowStep (ops : MapperOps μ) (p : PPU μ) : PPU μ :=
  if (2 ≤ p.cycle ∧ p.cycle < 258) ∨ (321 ≤ p.cycle ∧ p.cycle < 338) then
    bgFetchCycle ops p
  else p

/-- The end-of-visible-scanline vertical-scroll increment of `PPU.Clock`
(`cycle == 256`). -/
def incYStep (p : PPU μ) : PPU μ :=
  if p.cycle = 256 then
    if PPUMask.IsRenderingEnabled p.mask then
      { p with vramAddress := LoopyRegister.IncrementY p.vramAddress }
    else p
  else p

/-- Cycle 257 of `PPU.Clock`: reload shifters, reset the horizontal
scroll and run sprite evaluation. -/
def hblankStep (p : PPU μ) : PPU μ :=
  if p.cycle = 257 then
    let p := loadBackgroundShifters p
    let p := if PPUMask.IsRenderingEnabled p.mask then
        { p with vramAddress := LoopyRegister.TransferX p.vramAddress p.tempVRAMAddress }
      else p
    if -1 ≤ p.scanline ∧ p.scanline < 240 then spriteEvaluation p else p
  else p

/-- Cycle 320 of `PPU.Clock`: sprite pattern fetching. -/
def spriteFetchStep (ops : MapperOps μ) (p : PPU μ) : PPU μ :=
  if p.cycle = 320 then
    if -1 ≤ p.scanline ∧ p.scanline < 240 then spriteFetching ops p else p
  else p

/-- The superfluous nametable fetches at cycles 338 and 340 of
`PPU.Clock`. -/
def superfluousFetchStep (ops : MapperOps μ) (p : PPU μ) : PPU μ :=
  if p.cycle = 338 ∨ p.cycle = 340 then
    { p with bgNextTileID := ppuRead ops p (0x2000 ||| (p.vramAddress &&& 0x0FFF)) }
  else p

/-- The pre-render vertical-scroll restore of `PPU.Clock`
(`scanline == -1 && cycle >= 280 && cycle < 305`). -/
def transferYStep (p : PPU μ) : PPU μ :=
  if p.scanline = -1 ∧ 280 ≤ p.cycle ∧ p.cycle < 305 then
    if PPUMask.IsRenderingEnabled p.mask then
      { p with vramAddress := LoopyRegister.TransferY p.vramAddress p.tempVRAMAddress }
    else p
  else p

/-- The pre-render/visible-scanline block of `PPU.Clock`
(`scanline >= -1 && scanline < 240`), as the sequence of its Go
sub-blocks; each step tests its own condition on the current state,
exactly as the Go code re-reads `p` after each mutation. -/
def activeScanlinePhase (ops : MapperOps μ) (p : PPU μ) : PPU μ :=
  transferYStep (superfluousFetchStep ops (spriteFetchStep ops (hblankStep
    (incYStep (bgWindowStep ops (clearFlagsStep p))))))

/-- The advance-timing tail of `PPU.Clock`: `cycle++`; at 341 wrap to a
new scanline (with the odd-frame skip); when the new scanline reaches
`ScanlinesPerFrame` reset to -1 and complete the frame. -/
def advanceTiming (p : PPU μ) : PPU μ :=
  let cyc := p.cycle + 1
  if CyclesPerScanline ≤ cyc then
    let sl := p.scanline + 1
    let cyc2 : Nat :=
      if sl = 0 ∧ p.frame % 2 = 1 ∧ PPUMask.IsRenderingEnabled p.mask then 1 else 0
    if ScanlinesPerFrame ≤ sl then
      { p with cycle := cyc2, scanline := -1, frameComplete := true, frame := p.frame + 1,
               oddFrame := !p.oddFrame }
    else
      { p with cycle := cyc2, scanline := sl }
  else { p with cycle := cyc }

/-- The pixel-rendering gate of `PPU.Clock`: visible scanline, cycles
1 to 256. -/
def renderGate (ops : MapperOps μ) (p : PPU μ) : PPU μ :=
  if 0 ≤ p.scanline ∧ p.scanline < 240 ∧ 1 ≤ p.cycle ∧ p.cycle ≤ 256 then
    renderPixel ops p
  else p

/-- The active-scanline gate of `PPU.Clock`
(`scanline >= -1 && scanline < 240`). -/
def activeGate (ops : MapperOps μ) (p : PPU μ) : PPU μ :=
  if -1 ≤ p.scanline ∧ p.scanline < 240 then activeScanlinePhase ops p else p

/-- The VBlank entry of `PPU.Clock` (`scanline == 241 && cycle == 1`):
set the VBlank flag and latch the NMI when enabled. -/
def vblankStep (p : PPU μ) : PPU μ :=
  if p.scanline = 241 ∧ p.cycle = 1 then
    let p := { p with status := PPUStatus.SetVBlank p.status true }
    if PPUControl.EnableNMI p.control then { p with nmiOutput := true } else p
  else p

/-- One PPU tick (pkg/ppu/sprites.go, `PPU.Clock`). -/
def Clock (ops : MapperOps μ) (p : PPU μ) : PPU μ :=
  advanceTiming (vblankStep (activeGate ops (renderGate ops p)))

/-- CPU-side register write (pkg/ppu/sprites.go, `WriteCPURegister`). -/
def WriteCPURegister (ops : MapperOps μ) (p : PPU μ) (addr value : Nat) : PPU μ :=
  if addr = 0x2000 then
    let p := { p with control := value }
    let p := { p with tempVRAMAddress :=
      LoopyRegister.SetNametableX p.tempVRAMAddress (PPUControl.NametableX p.control) }
    { p with tempVRAMAddress :=
      LoopyRegister.SetNametableY p.tempVRAMAddress (PPUControl.NametableY p.control) }
  else if addr = 0x2001 then { p with mask := value }
  else if addr = 0x2003 then { p with oamAddress := value }
  else if addr = 0x2004 then
    { p with oam := upd p.oam p.oamAddress value, oamAddress := u8 (p.oamAddress + 1) }
  else if addr = 0x2005 then
    if ¬ p.writeLatch then
      { p with tempVRAMAddress := LoopyRegister.SetCoarseX p.tempVRAMAddress (value >>> 3),
               fineX := value &&& 0x07, writeLatch := true }
    else
      let p := { p with tempVRAMAddress :=
        LoopyRegister.SetFineY p.tempVRAMAddress (value &&& 0x07) }
      { p with tempVRAMAddress := LoopyRegister.SetCoarseY p.tempVRAMAddress (value >>> 3),
               writeLatch := false }
  else if addr = 0x2006 then
    if ¬ p.writeLatch then
      let t := LoopyRegister.Set ((p.tempVRAMAddress &&& 0x00FF) ||| ((value &&& 0x3F) <<< 8))
      { p with tempVRAMAddress := t, writeLatch := true }
    else
      let p := { p with tempVRAMAddress :=
        LoopyRegister.Set ((p.tempVRAMAddress &&& 0xFF00) ||| value) }
      { p with vramAddress := LoopyRegister.Set p.tempVRAMAddress, writeLatch := false }
  else if addr = 0x2007 then
    let p := ppuWrite ops p p.vramAddress value
    { p with vramAddress :=
      LoopyRegister.Set (p.vramAddress + PPUControl.IncrementMode p.control) }
  else p

/-- CPU-side register read (pkg/ppu/sprites.go, `ReadCPURegister`);
returns the value and the successor state (reads have side effects). -/
def ReadCPURegister (ops : MapperOps μ) (p : PPU μ) (addr : Nat) : Nat × PPU μ :=
  if addr = 0x2002 then
    let value := p.status
    let p := { p with status := PPUStatus.SetVBlank p.status false, writeLatch := false }
    (value, p)
  else if addr = 0x2004 then (p.oam p.oamAddress, p)
  else if addr = 0x2007 then
    let value := p.readBuffer
    let newBuffer := ppuRead ops p p.vramAddress
    let value := if 0x3F00 ≤ p.vramAddress then newBuffer else value
    let p := { p with readBuffer := newBuffer }
    let p := { p with vramAddress :=
      LoopyRegister.Set (p.vramAddress + PPUControl.IncrementMode p.control) }
    (value, p)
  else (0, p)

end PPU

/-! ## Controller (pkg/controller/controller.go) -/

structure Controller where
  buttons : Nat → Bool
  strobe : Bool
  index : Nat

namespace Controller

/-- A freshly constructed controller (`NewController`): all fields zero. -/
def NewController : Controller := { buttons := fun _ => false, strobe := false, index := 0 }

/-- Strobe write (`Controller.Write`): a falling edge of bit 0 resets
the read index. -/
def Write (c : Controller) (value : Nat) : Controller :=
  let wasStrobe := c.strobe
  let c := { c with strobe := value &&& 0x01 != 0 }
  if wasStrobe ∧ ¬ c.strobe then { c with index := 0 } else c

/-- Serial read (`Controller.Read`): with strobe set, always the A
button without touching the index; otherwise the button at `index`
(or 1 once 8 buttons were consumed), then the index advances, capped
back to 8 above 23. -/
def Read (c : Controller) : Nat × Controller :=
  if c.strobe then
    (if c.buttons 0 then 0x01 else 0x00, c)
  else
    let value := if c.index < 8 then (if c.buttons c.index then 0x01 else 0x00) else 0x01
    let idx := u8 (c.index + 1)
    let idx := if 23 < idx then 8 else idx
    (value, { c with index := idx })

end Controller

/-! ## MMC1 (pkg/cartridge/mapper1.go) -/

structure Mapper1 where
  prgROM : Nat → Nat
  prgROMLen : Nat
  chrMem : Nat → Nat
  chrMemLen : Nat
  prgRAM : Nat → Nat
  prgBanks : Nat
  chrBanks : Nat
  chrIsRAM : Bool
  shiftRegister : Nat
  shiftCount : Nat
  mirroring : Nat
  prgMode : Nat
  chrMode : Nat
  chrBank0 : Nat
  chrBank1 : Nat
  prgBank : Nat
  prgRAMEnabled : Bool

namespace Mapper1

/-- `NewMapper1` applied to an empty PRG-ROM and no CHR-ROM (CHR-RAM is
allocated); the register reset state is `shiftRegister = 0x10`,
`prgMode = 3`. -/
def New (mirroring : Nat) : Mapper1 :=
  { prgROM := fun _ => 0, prgROMLen := 0, chrMem := fun _ => 0, chrMemLen := 8192,
    prgRAM := fun _ => 0, prgBanks := 0, chrBanks := 2, chrIsRAM := true,
    shiftRegister := 0x10, shiftCount := 0, mirroring := mirroring, prgMode := 3,
    chrMode := 0, chrBank0 := 0, chrBank1 := 0, prgBank := 0, prgRAMEnabled := true }

/-- Commit of the filled shift register to the internal register selected
by bits 13-14 of the address (`Mapper1.writeRegister`). -/
def writeRegister (m : Mapper1) (addr value : Nat) : Mapper1 :=
  if 0x8000 ≤ addr ∧ addr < 0xA000 then
    { m with mirroring := value &&& 0x03, prgMode := (value >>> 2) &&& 0x03,
             chrMode := (value >>> 4) &&& 0x01 }
  else if 0xA000 ≤ addr ∧ addr < 0xC000 then { m with chrBank0 := value &&& 0x1F }
  else if 0xC000 ≤ addr ∧ addr < 0xE000 then { m with chrBank1 := value &&& 0x1F }
  else if 0xE000 ≤ addr then
    { m with prgBank := value &&& 0x0F, prgRAMEnabled := value &&& 0x10 == 0 }
  else m

/-- CPU write into PRG space (`Mapper1.WritePRG`): PRG-RAM stores, or the
5-bit serial shift-register protocol for `$8000-$FFFF`. -/
def WritePRG (m : Mapper1) (addr value : Nat) : Mapper1 :=
  if 0x6000 ≤ addr ∧ addr < 0x8000 then
    if m.prgRAMEnabled then { m with prgRAM := upd m.prgRAM (addr - 0x6000) value } else m
  else if 0x8000 ≤ addr then
    if value &&& 0x80 != 0 then
      { m with shiftRegister := 0x10, shiftCount := 0, prgMode := 3 }
    else
      let s := (m.shiftRegister >>> 1) ||| ((value &&& 1) <<< 4)
      let k := m.shiftCount + 1
      if k = 5 then
        let m := writeRegister { m with shiftRegister := s, shiftCount := k } addr s
        { m with shiftRegister := 0x10, shiftCount := 0 }
      else { m with shiftRegister := s, shiftCount := k }
  else m

end Mapper1

/-! ## MMC3 (pkg/cartridge/cartridge.go, Mapper4) -/

structure Mapper4 where
  prgROM : Nat → Nat
  prgROMLen : Nat
  chrMem : Nat → Nat
  chrMemLen : Nat
  prgRAM : Nat → Nat
  prgBanks : Nat
  chrBanks : Nat
  chrIsRAM : Bool
  bankSelect : Nat
  prgMode : Nat
  chrMode : Nat
  registers : Nat → Nat
  mirroring : Nat
  prgRAMEnabled : Bool
  prgRAMWriteProtect : Bool
  irqLatch : Nat
  irqCounter : Nat
  irqEnabled : Bool
  irqPending : Bool
  irqReloadFlag : Bool

namespace Mapper4

/-- `NewMapper4` applied to an empty PRG-ROM and no CHR-ROM (CHR-RAM is
allocated); all IRQ state starts cleared. -/
def New (mirroring : Nat) : Mapper4 :=
  { prgROM := fun _ => 0, prgROMLen := 0, chrMem := fun _ => 0, chrMemLen := 8192,
    prgRAM := fun _ => 0, prgBanks := 0, chrBanks := 8, chrIsRAM := true,
    bankSelect := 0, prgMode := 0, chrMode := 0, registers := fun _ => 0,
    mirroring := mirroring, prgRAMEnabled := true, prgRAMWriteProtect := false,
    irqLatch := 0, irqCounter := 0, irqEnabled := false, irqPending := false,
    irqReloadFlag := false }

/-- CPU write into PRG space (`Mapper4.WritePRG`): PRG-RAM, or the MMC3
register pairs selected by bits 13-14 and the low address bit. -/
def WritePRG (m : Mapper4) (addr value : Nat) : Mapper4 :=
  if 0x6000 ≤ addr ∧ addr < 0x8000 then
    if m.prgRAMEnabled ∧ ¬ m.prgRAMWriteProtect then
      { m with prgRAM := upd m.prgRAM (addr - 0x6000) value }
    else m
  else if 0x8000 ≤ addr ∧ addr < 0xA000 then
    if addr &&& 1 = 0 then
      { m with bankSelect := value &&& 0x07, prgMode := (value >>> 6) &&& 0x01,
               chrMode := (value >>> 7) &&& 0x01 }
    else { m with registers := upd m.registers m.bankSelect value }
  else if 0xA000 ≤ addr ∧ addr < 0xC000 then
    if addr &&& 1 = 0 then
      (if value &&& 1 = 0 then { m with mirroring := 1 } else { m with mirroring := 0 })
    else
      { m with prgRAMWriteProtect := value &&& 0x40 != 0, prgRAMEnabled := value &&& 0x80 != 0 }
  else if 0xC000 ≤ addr ∧ addr < 0xE000 then
    if addr &&& 1 = 0 then { m with irqLatch := value }
    else { m with irqCounter := 0, irqReloadFlag := true }
  else if 0xE000 ≤ addr then
    if addr &&& 1 = 0 then { m with irqEnabled := false, irqPending := false }
    else { m with irqEnabled := true }
  else m

/-- Scanline hook (`Mapper4.Scanline`): reload-or-decrement the IRQ
counter, then raise `irqPending` when the counter is 0 and IRQs are
enabled. -/
def Scanline (m : Mapper4) : Mapper4 :=
  let m :=
    if m.irqCounter = 0 ∨ m.irqReloadFlag then
      { m with irqCounter := m.irqLatch, irqReloadFlag := false }
    else { m with irqCounter := m.irqCounter - 1 }
  if m.irqCounter = 0 ∧ m.irqEnabled then { m with irqPending := true } else m

/-- `Mapper4.IRQPending`. -/
def IRQPending (m : Mapper4) : Bool := m.irqPending

/-- `Mapper4.ClearIRQ`. -/
def ClearIRQ (m : Mapper4) : Mapper4 := { m with irqPending := false }

end Mapper4

/-- A trivial mapper over `Unit` state, used to instantiate concrete PPU
runs that never touch cartridge memory. -/
def unitOps : MapperOps Unit :=
  { ReadPRG := fun _ _ => 0, WritePRG := fun m _ _ => m,
    ReadCHR := fun _ _ => 0, WriteCHR := fun m _ _ => m,
    Scanline := fun m => m }

/-- The `MapperOps` record for MMC3, packaging the `Mapper4` methods the
way Go dispatches the `cartridge.Mapper` interface.  The PRG/CHR
bank-decode methods are irrelevant to the claims settled here and are
left as zero reads / identity writes. -/
def mapper4Ops : MapperOps Mapper4 :=
  { ReadPRG := fun _ _ => 0, WritePRG := Mapper4.WritePRG,
    ReadCHR := fun _ _ => 0, WriteCHR := fun m _ _ => m,
    Scanline := Mapper4.Scanline }

/-! ## System bus (pkg/bus, NESBus)

The Go bus holds a second pointer to the same mapper object the PPU
holds; the single mapper state lives in `ppu.mapper`, and the bus's
cartridge accesses are routed through it. -/

structure NESBus (μ : Type) where
  cpuRAM : Nat → Nat
  ppu : PPU μ
  controller1 : Controller
  controller2 : Controller
  dmaPage : Nat
  dmaAddr : Nat
  dmaData : Nat
  dmaDummy : Bool
  dmaTransfer : Bool

namespace NESBus

variable {μ : Type}

/-- CPU bus read (`NESBus.Read`); PPU-register and controller reads have
side effects, so the successor bus state is returned too. -/
def Read (ops : MapperOps μ) (b : NESBus μ) (addr : Nat) : Nat × NESBus μ :=
  if addr < 0x2000 then (b.cpuRAM (addr &&& 0x07FF), b)
  else if addr < 0x4000 then
    let r := PPU.ReadCPURegister ops b.ppu (0x2000 + (addr &&& 0x0007))
    (r.1, { b with ppu := r.2 })
  else if addr = 0x4016 then
    let r := Controller.Read b.controller1
    (r.1, { b with controller1 := r.2 })
  else if addr = 0x4017 then
    let r := Controller.Read b.controller2
    (r.1, { b with controller2 := r.2 })
  else if 0x4020 ≤ addr then (ops.ReadPRG b.ppu.mapper addr, b)
  else (0, b)

/-- CPU bus write (`NESBus.Write`); a store to `$4014` arms OAM DMA. -/
def Write (ops : MapperOps μ) (b : NESBus μ) (addr data : Nat) : NESBus μ :=
  if addr < 0x2000 then { b with cpuRAM := upd b.cpuRAM (addr &&& 0x07FF) data }
  else if addr < 0x4000 then
    { b with ppu := PPU.WriteCPURegister ops b.ppu (0x2000 + (addr &&& 0x0007)) data }
  else if addr = 0x4014 then
    { b with dmaPage := data, dmaAddr := 0x00, dmaTransfer := true }
  else if addr = 0x4016 then
    { b with controller1 := Controller.Write b.controller1 data,
             controller2 := Controller.Write b.controller2 data }
  else if 0x4020 ≤ addr then { b with ppu := { b.ppu with mapper := ops.WritePRG b.ppu.mapper addr data } }
  else b

/-- One CPU-cycle bus tick (`NESBus.Clock`): three PPU ticks, then one
step of the OAM DMA engine when a transfer is active.  `dmaAddr` is a
Go `uint8`, so its increment wraps at 256. -/
def Clock (ops : MapperOps μ) (b : NESBus μ) : NESBus μ :=
  let b := { b with ppu := PPU.Clock ops (PPU.Clock ops (PPU.Clock ops b.ppu)) }
  if b.dmaTransfer then
    if b.dmaDummy then { b with dmaDummy := false }
    else
      let b :=
        if b.dmaAddr % 2 = 0 then
          let addr := u16 ((b.dmaPage <<< 8) ||| b.dmaAddr)
          let r := Read ops b addr
          { r.2 with dmaData := r.1 }
        else
          { b with ppu := PPU.WriteCPURegister ops b.ppu 0x2004 b.dmaData }
      let b := { b with dmaAddr := u8 (b.dmaAddr + 1) }
      if b.dmaAddr = 0 then { b with dmaTransfer := false, dmaDummy := true } else b
  else b

/-- Iterated bus clock. -/
def ClockN (ops : MapperOps μ) : Nat → NESBus μ → NESBus μ
  | 0, b => b
  | n + 1, b => ClockN ops n (Clock ops b)

end NESBus

/-! ## Initial states and concrete instances -/

/-- A freshly constructed PPU (`NewPPU`): scanline, cycle and frame are
zero, palette RAM is zeroed, and every other field has its Go zero
value. -/
def NewPPU {μ : Type} (m : μ) : PPU μ :=
  { nametable := fun _ => 0, paletteRAM := fun _ => 0, oam := fun _ => 0, oamAddress := 0,
    control := 0, mask := 0, status := 0, oamData := 0, ppuScroll := 0, ppuAddr := 0,
    ppuData := 0, vramAddress := 0, tempVRAMAddress := 0, fineX := 0, writeLatch := false,
    readBuffer := 0, scanline := 0, cycle := 0, frame := 0, oddFrame := false,
    frameComplete := false, bgNextTileID := 0, bgNextTileAttrib := 0, bgNextTileLSB := 0,
    bgNextTileMSB := 0, bgShifterPatternLo := 0, bgShifterPatternHi := 0,
    bgShifterAttribLo := 0, bgShifterAttribHi := 0, secondaryOAM := fun _ => 0,
    spriteCount := 0, sprite0Present := false, spriteShifterPatternLo := fun _ => 0,
    spriteShifterPatternHi := fun _ => 0, spriteAttributes := fun _ => 0,
    spritePositions := fun _ => 0, mapper := m, mirroringMode := 0,
    frameBuffer := fun _ => 0, nmiOutput := false }

/-- Modelled from the spec (section 4.2.6, the `$2007` read row): return
the 1-byte read buffer; refill the buffer from the PPU bus at `v`; if
`v ≥ 0x3F00` the returned value is the refilled byte directly; then
`v += increment` (the 15-bit register wraps). -/
def ppudataReadSpec {μ : Type} (ops : MapperOps μ) (p : PPU μ) : Nat × PPU μ :=
  let fetched := PPU.ppuRead ops p p.vramAddress
  let returned := if p.vramAddress < 0x3F00 then p.readBuffer else fetched
  (returned,
    { p with readBuffer := fetched,
             vramAddress := LoopyRegister.Set (p.vramAddress + PPUControl.IncrementMode p.control) })

/-- The controller state after the n-th sequential read. -/
def readState (c : Controller) (n : Nat) : Controller :=
  (fun c => (Controller.Read c).2)^[n] c

/-- The value produced by the (n+1)-th sequential read (0-indexed). -/
def readValue (c : Controller) (n : Nat) : Nat :=
  (Controller.Read (readState c n)).1

/-- Writing 1 then 0 to the controller register (the strobe pulse). -/
def afterStrobe (c : Controller) : Controller :=
  Controller.Write (Controller.Write c 1) 0

/-- Concrete controller for scenario E4: A and Start pressed. -/
def ctrlE4 : Controller :=
  { Controller.NewController with buttons := fun i => i == 0 || i == 3 }

/-- Concrete PPU state on a visible pixel at x = 0 (scanline 0, cycle 1)
with an opaque background pixel, an opaque sprite-0 pixel at x = 0, and
PPUMASK = 0x1E (background, sprites and both left-edge bits enabled). -/
def ppuC5 : PPU Unit :=
  { NewPPU () with
    scanline := 0, cycle := 1, mask := 0x1E,
    bgShifterPatternLo := 0x8000, spriteCount := 1, sprite0Present := true,
    spriteShifterPatternLo := fun i => if i = 0 then 0x80 else 0 }

/-- Concrete PPU state whose nametable holds a recognizable pattern,
for the PPUADDR/PPUDATA scenario E3. -/
def ppuE3 : PPU Unit :=
  { NewPPU () with nametable := fun a => (a * 3 + 5) % 256 }

/-- Concrete bus for the OAM-DMA run: CPU RAM holds `addr % 256`, the
PPU idles in VBlank (scanline 241), no DMA armed yet. -/
def busC2 : NESBus Unit :=
  { cpuRAM := fun a => a % 256, ppu := { NewPPU () with scanline := 241 },
    controller1 := Controller.NewController, controller2 := Controller.NewController,
    dmaPage := 0, dmaAddr := 0, dmaData := 0, dmaDummy := false, dmaTransfer := false }

/-- The bus of `busC2` immediately after the CPU stores page 0 to `$4014`. -/
def busC2armed : NESBus Unit := NESBus.Write unitOps busC2 0x4014 0

/-- The MMC3 state of scenario E6: latch 4 (`$C000`), reload requested
(`$C001`), IRQ enabled (`$E001`). -/
def m4E6 : Mapper4 :=
  Mapper4.WritePRG (Mapper4.WritePRG (Mapper4.WritePRG (Mapper4.New 0) 0xC000 4) 0xC001 0) 0xE001 0

/-- The MMC1 state of scenario E5 after the `0x80` reset write to `$8000`. -/
def m1E5reset : Mapper1 := Mapper1.WritePRG (Mapper1.New 0) 0x8000 0x80

/-- The MMC1 state of scenario E5 after the reset write followed by five
writes of `0x01` to `$8000`. -/
def m1E5done : Mapper1 :=
  Mapper1.WritePRG (Mapper1.WritePRG (Mapper1.WritePRG (Mapper1.WritePRG (Mapper1.WritePRG
    m1E5reset 0x8000 0x01) 0x8000 0x01) 0x8000 0x01) 0x8000 0x01) 0x8000 0x01

/-- Variant of `ppuC5` at x = 9 (cycle 10) where the sprite-0 hit fires:
opaque background everywhere and sprite 0 placed at x = 9. -/
def ppuC5hit : PPU Unit :=
  { ppuC5 with cycle := 10, bgShifterPatternLo := 0xFFFF, spritePositions := fun _ => 9 }

/-! # Theorems -/

section Theorems

variable {μ : Type}

/-! ## Projection helper lemmas -/

theorem Sprite0Hit_set_true (r : Nat) :
    PPUStatus.Sprite0Hit (PPUStatus.SetSprite0Hit r true) = true := by
  unfold PPUStatus.Sprite0Hit PPUStatus.SetSprite0Hit
  rw [if_pos rfl]
  have h : (r ||| 0x40).testBit 6 = true := by
    rw [Nat.testBit_or, show Nat.testBit 0x40 6 = true from by decide]
    simp
  simpa [Nat.testBit, Nat.and_one_is_mod, Nat.shiftRight_eq_div_pow] using h

theorem bgPixel_zero_of_not_RB (p : PPU μ)
    (h : PPUMask.RenderBackground p.mask = false) : (PPU.bgPixelPalette p).1 = 0 := by
  simp [PPU.bgPixelPalette, h]

theorem sprite0HitUpdate_hit (p : PPU μ) (x : Nat) (is0 : Bool)
    (h0 : PPUStatus.Sprite0Hit p.status = false) :
    (PPUStatus.Sprite0Hit (PPU.sprite0HitUpdate p x is0).status = true ↔
      (is0 = true ∧ x < 255 ∧ 1 ≤ x ∧
       PPUMask.RenderBackground p.mask = true ∧ PPUMask.RenderSprites p.mask = true ∧
       (PPUMask.RenderBackgroundLeft p.mask = true ∨ 8 ≤ x))) := by
  unfold PPU.sprite0HitUpdate
  split_ifs with hA hB hC <;> simp_all [Sprite0Hit_set_true]

theorem writePixelFB_status (ops : MapperOps μ) (p : PPU μ) (x y pix pal : Nat) :
    (PPU.writePixelFB ops p x y pix pal).status = p.status := rfl

/-! ## Mapper-state preservation through one PPU tick

The Go `PPU.Clock` reads CHR through the mapper pointer but performs no
mapper mutation and, in particular, contains no call of the interface's
`Scanline` hook; these lemmas track the `mapper` field through each
block of `Clock`. -/

theorem updateShifters_mapper (p : PPU μ) : (PPU.updateShifters p).mapper = p.mapper := by
  unfold PPU.updateShifters; split <;> rfl

theorem loadBackgroundShifters_mapper (p : PPU μ) :
    (PPU.loadBackgroundShifters p).mapper = p.mapper := rfl

theorem renderPixel_mapper (ops : MapperOps μ) (p : PPU μ) :
    (PPU.renderPixel ops p).mapper = p.mapper := by
  simp only [PPU.renderPixel, PPU.writePixelFB, PPU.sprite0HitUpdate]
  split_ifs <;> rfl

theorem bgFetchBody_mapper (ops : MapperOps μ) (p : PPU μ) :
    (PPU.bgFetchBody ops p).mapper = p.mapper := by
  unfold PPU.bgFetchBody
  split <;> first | rfl | (split_ifs <;> rfl)

theorem bgFetchCycle_mapper (ops : MapperOps μ) (p : PPU μ) :
    (PPU.bgFetchCycle ops p).mapper = p.mapper := by
  unfold PPU.bgFetchCycle
  rw [bgFetchBody_mapper, updateShifters_mapper]

theorem spriteEvalLoop_mapper (h : Nat) :
    ∀ (fuel i : Nat) (p : PPU μ), (PPU.spriteEvalLoop h i fuel p).mapper = p.mapper := by
  intro fuel
  induction fuel with
  | zero => intro i p; rfl
  | succ n ih =>
    intro i p
    unfold PPU.spriteEvalLoop
    dsimp only
    split_ifs <;> simp [ih]

theorem spriteEvaluation_mapper (p : PPU μ) :
    (PPU.spriteEvaluation p).mapper = p.mapper := by
  unfold PPU.spriteEvaluation
  dsimp only
  split_ifs <;> simp [spriteEvalLoop_mapper]

theorem spriteFetchLoop_mapper (ops : MapperOps μ) (h t : Nat) :
    ∀ (fuel i : Nat) (p : PPU μ), (PPU.spriteFetchLoop ops h t i fuel p).mapper = p.mapper := by
  intro fuel
  induction fuel with
  | zero => intro i p; rfl
  | succ n ih =>
    intro i p
    unfold PPU.spriteFetchLoop
    dsimp only
    simp [ih]

theorem spriteFetching_mapper (ops : MapperOps μ) (p : PPU μ) :
    (PPU.spriteFetching ops p).mapper = p.mapper := by
  unfold PPU.spriteFetching
  simp [spriteFetchLoop_mapper]

theorem clearFlagsStep_mapper (p : PPU μ) : (PPU.clearFlagsStep p).mapper = p.mapper := by
  unfold PPU.clearFlagsStep; dsimp only; split_ifs <;> rfl

theorem bgWindowStep_mapper (ops : MapperOps μ) (p : PPU μ) :
    (PPU.bgWindowStep ops p).mapper = p.mapper := by
  unfold PPU.bgWindowStep; split_ifs <;> simp [bgFetchCycle_mapper]

theorem incYStep_mapper (p : PPU μ) : (PPU.incYStep p).mapper = p.mapper := by
  unfold PPU.incYStep; split_ifs <;> rfl

theorem hblankStep_mapper (p : PPU μ) : (PPU.hblankStep p).mapper = p.mapper := by
  unfold PPU.hblankStep
  dsimp only
  split_ifs <;> simp [spriteEvaluation_mapper, loadBackgroundShifters_mapper]

theorem spriteFetchStep_mapper (ops : MapperOps μ) (p : PPU μ) :
    (PPU.spriteFetchStep ops p).mapper = p.mapper := by
  unfold PPU.spriteFetchStep; split_ifs <;> simp [spriteFetching_mapper]

theorem superfluousFetchStep_mapper (ops : MapperOps μ) (p : PPU μ) :
    (PPU.superfluousFetchStep ops p).mapper = p.mapper := by
  unfold PPU.superfluousFetchStep; split_ifs <;> rfl

theorem transferYStep_mapper (p : PPU μ) : (PPU.transferYStep p).mapper = p.mapper := by
  unfold PPU.transferYStep; split_ifs <;> rfl

theorem activeScanlinePhase_mapper (ops : MapperOps μ) (p : PPU μ) :
    (PPU.activeScanlinePhase ops p).mapper = p.mapper := by
  unfold PPU.activeScanlinePhase
  rw [transferYStep_mapper, superfluousFetchStep_mapper, spriteFetchStep_mapper,
    hblankStep_mapper, incYStep_mapper, bgWindowStep_mapper, clearFlagsStep_mapper]

theorem renderGate_mapper (ops : MapperOps μ) (p : PPU μ) :
    (PPU.renderGate ops p).mapper = p.mapper := by
  unfold PPU.renderGate; split_ifs <;> simp [renderPixel_mapper]

theorem activeGate_mapper (ops : MapperOps μ) (p : PPU μ) :
    (PPU.activeGate ops p).mapper = p.mapper := by
  unfold PPU.activeGate; split_ifs <;> simp [activeScanlinePhase_mapper]

theorem vblankStep_mapper (p : PPU μ) : (PPU.vblankStep p).mapper = p.mapper := by
  unfold PPU.vblankStep; dsimp only; split_ifs <;> rfl

theorem advanceTiming_mapper (p : PPU μ) : (PPU.advanceTiming p).mapper = p.mapper := by
  unfold PPU.advanceTiming; dsimp only; split_ifs <;> rfl

theorem Clock_mapper (ops : MapperOps μ) (p : PPU μ) :
    (PPU.Clock ops p).mapper = p.mapper := by
  unfold PPU.Clock
  rw [advanceTiming_mapper, vblankStep_mapper, activeGate_mapper, renderGate_mapper]

theorem ClockIter_mapper (ops : MapperOps μ) (n : Nat) (p : PPU μ) :
    ((PPU.Clock ops)^[n] p).mapper = p.mapper := by
  induction n generalizing p with
  | zero => rfl
  | succ n ih => rw [Function.iterate_succ_apply, ih, Clock_mapper]

/-! ## Controller protocol lemmas -/

theorem afterStrobe_eq (c : Controller) :
    afterStrobe c = { c with strobe := false, index := 0 } := by
  unfold afterStrobe Controller.Write
  cases h : c.strobe <;> simp [h]

theorem read_step (c : Controller) (hs : c.strobe = false) (hi : c.index ≤ 22) :
    (Controller.Read c).2 = { c with index := c.index + 1 } := by
  unfold Controller.Read
  rw [if_neg (by simp [hs])]
  have hu : u8 (c.index + 1) = c.index + 1 := by unfold u8; omega
  simp only [hu]
  rw [if_neg (by omega)]

theorem read_value_lt8 (c : Controller) (hs : c.strobe = false) (hi : c.index < 8) :
    (Controller.Read c).1 = (if c.buttons c.index then 1 else 0) := by
  unfold Controller.Read
  rw [if_neg (by simp [hs])]
  simp [hi]

theorem read_value_ge8 (c : Controller) (hs : c.strobe = false) (hi : 8 ≤ c.index) :
    (Controller.Read c).1 = 1 := by
  unfold Controller.Read
  rw [if_neg (by simp [hs])]
  simp [Nat.not_lt.mpr hi]

theorem read_step_inv (c : Controller) (hs : c.strobe = false) (h8 : 8 ≤ c.index)
    (h23 : c.index ≤ 23) :
    (Controller.Read c).2.strobe = false ∧ (Controller.Read c).2.buttons = c.buttons ∧
      8 ≤ (Controller.Read c).2.index ∧ (Controller.Read c).2.index ≤ 23 := by
  unfold Controller.Read
  rw [if_neg (by simp [hs])]
  have hu : u8 (c.index + 1) = c.index + 1 := by unfold u8; omega
  simp only [hu]
  split_ifs with h <;> simp [hs] <;> omega

theorem readState_early (c : Controller) (hs : c.strobe = false) :
    ∀ k, c.index + k ≤ 23 → readState c k = { c with index := c.index + k } := by
  intro k
  induction k with
  | zero => intro _; rfl
  | succ n ih =>
    intro hk
    have h1 : readState c (n + 1) = (Controller.Read (readState c n)).2 := by
      unfold readState
      rw [Function.iterate_succ_apply']
    rw [h1, ih (by omega), read_step _ (by simp [hs]) (by simp; omega)]
    dsimp only
    rw [Nat.add_assoc]

theorem readState_late (c : Controller) (hs : c.strobe = false) (h8 : 8 ≤ c.index)
    (h23 : c.index ≤ 23) :
    ∀ n, (readState c n).strobe = false ∧ (readState c n).buttons = c.buttons ∧
      8 ≤ (readState c n).index ∧ (readState c n).index ≤ 23 := by
  intro n
  induction n with
  | zero => exact ⟨hs, rfl, h8, h23⟩
  | succ n ih =>
    have h1 : readState c (n + 1) = (Controller.Read (readState c n)).2 := by
      unfold readState
      rw [Function.iterate_succ_apply']
    obtain ⟨i1, i2, i3, i4⟩ := ih
    have h2 := read_step_inv (readState c n) i1 i3 i4
    rw [h1]
    exact ⟨h2.1, h2.2.1.trans i2, h2.2.2.1, h2.2.2.2⟩

/-! ## PPUDATA read, general form -/

theorem read2007_eq_spec (ops : MapperOps μ) (p : PPU μ) :
    PPU.ReadCPURegister ops p 0x2007 = ppudataReadSpec ops p := by
  unfold PPU.ReadCPURegister ppudataReadSpec
  rw [if_neg (by omega), if_neg (by omega), if_pos rfl]
  dsimp only
  rcases Nat.lt_or_ge p.vramAddress 0x3F00 with h | h
  · rw [if_neg (by omega), if_pos h]
  · rw [if_pos h, if_neg (by omega)]

/-! ## MMC1 shift register, general form -/

theorem mmc1_write_general (m : Mapper1) (addr value : Nat) (haddr : 0x8000 ≤ addr) :
    (value &&& 0x80 ≠ 0 →
      Mapper1.WritePRG m addr value =
        { m with shiftRegister := 0x10, shiftCount := 0, prgMode := 3 }) ∧
    (value &&& 0x80 = 0 → m.shiftCount + 1 ≠ 5 →
      Mapper1.WritePRG m addr value =
        { m with shiftRegister := (m.shiftRegister >>> 1) ||| ((value &&& 1) <<< 4),
                 shiftCount := m.shiftCount + 1 }) ∧
    (value &&& 0x80 = 0 → m.shiftCount + 1 = 5 →
      Mapper1.WritePRG m addr value =
        { Mapper1.writeRegister
            { m with shiftRegister := (m.shiftRegister >>> 1) ||| ((value &&& 1) <<< 4),
                     shiftCount := 5 }
            addr ((m.shiftRegister >>> 1) ||| ((value &&& 1) <<< 4)) with
          shiftRegister := 0x10, shiftCount := 0 }) := by
  unfold Mapper1.WritePRG
  rw [if_neg (by omega), if_pos haddr]
  refine ⟨?_, ?_, ?_⟩
  · intro h
    rw [if_pos (by simpa using h)]
  · intro h hk
    rw [if_neg (by simpa using h), if_neg hk]
  · intro h hk
    rw [if_neg (by simpa using h), if_pos hk, hk]

/-! ## MMC3 scanline hook, general form -/

theorem mmc3_scanline_general (m : Mapper4) :
    (Mapper4.Scanline m).irqCounter =
      (if m.irqCounter = 0 ∨ m.irqReloadFlag = true then m.irqLatch else m.irqCounter - 1) ∧
    (Mapper4.Scanline m).irqReloadFlag =
      (if m.irqCounter = 0 ∨ m.irqReloadFlag = true then false else m.irqReloadFlag) ∧
    (Mapper4.Scanline m).irqEnabled = m.irqEnabled ∧
    (Mapper4.Scanline m).irqLatch = m.irqLatch ∧
    ((Mapper4.Scanline m).irqPending = true ↔
      (m.irqPending = true ∨
        ((if m.irqCounter = 0 ∨ m.irqReloadFlag = true then m.irqLatch else m.irqCounter - 1) = 0 ∧
          m.irqEnabled = true))) := by
  unfold Mapper4.Scanline
  dsimp only
  by_cases h1 : m.irqCounter = 0 ∨ m.irqReloadFlag = true
  · rw [if_pos h1]
    dsimp only
    by_cases h2 : m.irqLatch = 0 ∧ m.irqEnabled = true
    · rw [if_pos h2]
      simp [h1, h2]
    · rw [if_neg h2]
      simp [h1, h2]
  · rw [if_neg h1]
    dsimp only
    by_cases h2 : m.irqCounter - 1 = 0 ∧ m.irqEnabled = true
    · rw [if_pos h2]
      simp [h1, h2]
    · rw [if_neg h2]
      simp [h1, h2]

/-! ## OAM-DMA bookkeeping, general form -/

theorem busRead_dma_fields (ops : MapperOps μ) (b : NESBus μ) (addr : Nat) :
    (NESBus.Read ops b addr).2.dmaAddr = b.dmaAddr ∧
    (NESBus.Read ops b addr).2.dmaTransfer = b.dmaTransfer ∧
    (NESBus.Read ops b addr).2.dmaDummy = b.dmaDummy := by
  unfold NESBus.Read
  split_ifs <;> exact ⟨rfl, rfl, rfl⟩

theorem dma_step_general (ops : MapperOps μ) (b : NESBus μ)
    (ht : b.dmaTransfer = true) (hd : b.dmaDummy = false) :
    (NESBus.Clock ops b).dmaAddr = u8 (b.dmaAddr + 1) ∧
    ((NESBus.Clock ops b).dmaTransfer = true ↔ u8 (b.dmaAddr + 1) ≠ 0) := by
  unfold NESBus.Clock
  try dsimp only
  rw [if_pos ht, if_neg (by simp [hd])]
  try dsimp only
  split_ifs with h1 h2 h2
  · obtain ⟨e1, e2, e3⟩ := busRead_dma_fields ops
      { b with ppu := PPU.Clock ops (PPU.Clock ops (PPU.Clock ops b.ppu)) }
      (u16 (b.dmaPage <<< 8 ||| b.dmaAddr))
    simp_all
  · obtain ⟨e1, e2, e3⟩ := busRead_dma_fields ops
      { b with ppu := PPU.Clock ops (PPU.Clock ops (PPU.Clock ops b.ppu)) }
      (u16 (b.dmaPage <<< 8 ||| b.dmaAddr))
    simp_all
  · simp_all
  · simp_all

end Theorems

section ClaimTheorems

variable {μ : Type}

/-- C1: the claim says that after every PPU tick the scanline lies in
-1..=260, and that finishing the 341st cycle of scanline 260 resets the
scanline to -1 (a 262-scanline frame).  Evaluating `PPU.Clock` at the
end of scanline 260 shows the code instead advances to scanline 261
without completing the frame; the reset to -1 happens only after
scanline 261 completes, so a frame spans 263 scanlines, contradicting
the code's own `ScanlinesPerFrame = 262`. -/
theorem clock_at_end_of_scanline_260_does_not_wrap :
    (PPU.Clock unitOps { NewPPU () with scanline := 260, cycle := 340 }).scanline = 261 ∧
    (PPU.Clock unitOps { NewPPU () with scanline := 260, cycle := 340 }).cycle = 0 ∧
    (PPU.Clock unitOps { NewPPU () with scanline := 260, cycle := 340 }).frameComplete = false ∧
    (PPU.Clock unitOps { NewPPU () with scanline := 261, cycle := 340 }).scanline = -1 ∧
    (PPU.Clock unitOps { NewPPU () with scanline := 261, cycle := 340 }).frameComplete = true := by
  refine ⟨?_, ?_, ?_, ?_, ?_⟩ <;> decide

set_option maxRecDepth 8000 in
/-- C2: the claim says OAM DMA copies all 256 bytes of page P to OAM in
index order over 513/514 CPU cycles starting with a dummy alignment
cycle.  Evaluating the bus shows: the first transfer starts with no
dummy cycle pending; `dmaAddr` serves as both the cycle counter and the
byte index, so after 4 bus clocks OAM holds the bytes at source offsets
0 and 2 (OAM byte 1 receives source byte 2, never source byte 1); and
in general each active non-dummy bus clock advances the 8-bit index by
exactly one, the transfer deactivating when it wraps - 256 bus clocks
per transfer, reading only the 128 even offsets. -/
theorem oam_dma_transfer_misbehaves :
    (busC2armed.dmaTransfer = true ∧ busC2armed.dmaDummy = false ∧
     (NESBus.ClockN unitOps 1 busC2armed).dmaAddr = 1 ∧
     (NESBus.ClockN unitOps 4 busC2armed).ppu.oam 0 = 0 ∧
     (NESBus.ClockN unitOps 4 busC2armed).ppu.oam 1 = 2 ∧
     (NESBus.ClockN unitOps 4 busC2armed).ppu.oamAddress = 2 ∧
     busC2.cpuRAM 1 = 1 ∧ busC2.cpuRAM 2 = 2) ∧
    (∀ (σ : Type) (ops : MapperOps σ) (b : NESBus σ),
      b.dmaTransfer = true → b.dmaDummy = false →
      (NESBus.Clock ops b).dmaAddr = u8 (b.dmaAddr + 1) ∧
      ((NESBus.Clock ops b).dmaTransfer = true ↔ u8 (b.dmaAddr + 1) ≠ 0)) := by
  refine ⟨?_, fun σ ops b ht hd => dma_step_general ops b ht hd⟩
  refine ⟨?_, ?_, ?_, ?_, ?_, ?_, ?_, ?_⟩ <;> decide

/-- Witness for the general part of `oam_dma_transfer_misbehaves`,
instantiated on the concrete armed bus. -/
theorem oam_dma_transfer_misbehaves_witness :
    (NESBus.Clock unitOps busC2armed).dmaAddr = 1 := by
  have h := (oam_dma_transfer_misbehaves.2 Unit unitOps busC2armed (by decide) (by decide)).1
  exact h.trans (by decide)

/-- C3: the claim says the nametable index is at most 2047 for every
mirroring mode, four-screen being treated as vertical when unsupported.
Evaluating the mirroring function shows four-screen mode maps PPU
address 0x2800 to index 2048, which is out of bounds for the 2 KiB
nametable array (index ≤ 2047), while treating it as vertical would
give index 0. -/
theorem fourScreen_nametable_index_out_of_bounds :
    PPU.mirrorNametableAddress 4 0x2800 = 2048 ∧
    nametableSize ≤ PPU.mirrorNametableAddress 4 0x2800 ∧
    PPU.mirrorNametableAddress 1 0x2800 = 0 := by
  refine ⟨?_, ?_, ?_⟩ <;> decide

/-- C4: the claim says the mapper's scanline hook is invoked exactly
once per rendered scanline during PPU clocking, making MMC3's
irq-pending flag rise after the programmed number of scanlines.  The
embedded `PPU.Clock` (like the Go source, which contains no call to
`mapper.Scanline` anywhere) leaves the mapper sub-state - in
particular `Mapper4.IRQPending` - unchanged under any number of PPU
ticks, so the hook is invoked zero times and the IRQ never arrives. -/
theorem ppu_clock_never_invokes_mapper_scanline (n : Nat) (p : PPU Mapper4) :
    ((PPU.Clock mapper4Ops)^[n] p).mapper = p.mapper ∧
    Mapper4.IRQPending ((PPU.Clock mapper4Ops)^[n] p).mapper = Mapper4.IRQPending p.mapper := by
  refine ⟨ClockIter_mapper _ _ _, ?_⟩
  rw [ClockIter_mapper]

/-- C5 counterexample: at x = 0 (scanline 0, cycle 1) with an opaque
background pixel, an opaque sprite-0 pixel, both rendering bits and
both left-edge bits enabled - every condition of the claim - the code
still does not set the sprite-0-hit bit, because `renderPixel`
additionally requires `x >= 1`. -/
theorem sprite0_hit_not_set_at_x0 :
    ((PPU.renderSprites ppuC5 0).2.2.2 = true ∧
     (PPU.renderSprites ppuC5 0).1 ≠ 0 ∧
     (PPU.bgPixelPalette ppuC5).1 ≠ 0 ∧
     PPUMask.RenderBackground ppuC5.mask = true ∧
     PPUMask.RenderSprites ppuC5.mask = true ∧
     PPUMask.RenderBackgroundLeft ppuC5.mask = true ∧
     PPUMask.RenderSpritesLeft ppuC5.mask = true ∧
     ppuC5.scanline = 0 ∧ ppuC5.cycle = 1 ∧
     PPUStatus.Sprite0Hit ppuC5.status = false) ∧
    PPUStatus.Sprite0Hit (PPU.renderPixel unitOps ppuC5).status = false := by
  refine ⟨⟨?_, ?_, ?_, ?_, ?_, ?_, ?_, ?_, ?_, ?_⟩, ?_⟩ <;> decide

/-- C5 (amended): when composing a visible pixel at x on a visible
scanline with the hit bit initially clear, the sprite-0-hit bit is set
if and only if the sprite pixel originates from OAM sprite 0, both the
background and sprite pixels are nonzero, x is not 255, AND x is at
least 1, the pixel is not in the masked left edge, and both background
and sprite rendering are enabled (sprite-left masking already forces
the sprite pixel to 0 below x = 8). -/
theorem sprite0_hit_iff_amended (ops : MapperOps μ) (p : PPU μ) (x bg bgpal sp pal : Nat)
    (pri is0 : Bool)
    (hsl : 0 ≤ p.scanline) (hsl2 : p.scanline < 240)
    (hc1 : 1 ≤ p.cycle) (hc2 : p.cycle ≤ 256)
    (hx : x = p.cycle - 1)
    (hbg : PPU.bgPixelPalette p = (bg, bgpal))
    (hsp : PPU.renderSprites p x = (sp, pal, pri, is0))
    (h0 : PPUStatus.Sprite0Hit p.status = false) :
    (PPUStatus.Sprite0Hit (PPU.renderPixel ops p).status = true ↔
      (is0 = true ∧ bg ≠ 0 ∧ sp ≠ 0 ∧ 1 ≤ x ∧ x ≠ 255 ∧
       PPUMask.RenderBackground p.mask = true ∧ PPUMask.RenderSprites p.mask = true ∧
       (PPUMask.RenderBackgroundLeft p.mask = true ∨ 8 ≤ x))) := by
  have hx255 : x ≤ 255 := by omega
  have hxcode : u16sub p.cycle 1 = x := by
    unfold u16sub
    omega
  have hy240 : intToU16 p.scanline < 240 := by
    unfold intToU16
    rw [Int.emod_eq_of_lt hsl (by omega)]
    omega
  simp only [PPU.renderPixel, hxcode, hbg, hsp]
  rw [if_neg (by simp only [ScreenWidth, ScreenHeight]; omega)]
  by_cases hre : PPUMask.IsRenderingEnabled p.mask = true
  · rw [if_neg (by simp [hre])]
    by_cases hbg0 : bg = 0 <;> by_cases hsp0 : sp = 0
    · rw [if_pos ⟨hbg0, hsp0⟩, writePixelFB_status]
      simp [h0, hbg0]
    · rw [if_neg (by simp [hsp0]), if_pos ⟨hbg0, Nat.pos_of_ne_zero hsp0⟩, writePixelFB_status]
      simp [h0, hbg0]
    · rw [if_neg (by simp [hbg0]), if_neg (by simp [hbg0]),
        if_pos ⟨Nat.pos_of_ne_zero hbg0, hsp0⟩, writePixelFB_status]
      simp [h0, hsp0]
    · rw [if_neg (by simp [hbg0]), if_neg (by simp [hbg0]), if_neg (by simp [hsp0]),
        writePixelFB_status]
      rw [sprite0HitUpdate_hit p x is0 h0]
      constructor
      · rintro ⟨h1, h2, h3, h4, h5, h6⟩
        exact ⟨h1, hbg0, hsp0, h3, by omega, h4, h5, h6⟩
      · rintro ⟨h1, _, _, h4, h5, h6, h7, h8⟩
        exact ⟨h1, by omega, h4, h6, h7, h8⟩
  · rw [if_pos hre]
    have hrb : PPUMask.RenderBackground p.mask = false := by
      revert hre
      unfold PPUMask.IsRenderingEnabled
      cases hb : PPUMask.RenderBackground p.mask <;> simp
    have hbg0 : bg = 0 := by
      have h := bgPixel_zero_of_not_RB p hrb
      rw [hbg] at h
      exact h
    simp [h0, hbg0]

/-- Witness for `sprite0_hit_iff_amended`: at x = 9 with sprite 0 and
the background both opaque and all rendering bits on, the hit bit is
set. -/
theorem sprite0_hit_iff_amended_witness :
    PPUStatus.Sprite0Hit (PPU.renderPixel unitOps ppuC5hit).status = true := by
  have h := sprite0_hit_iff_amended unitOps ppuC5hit 9 1 0 1 0 true true
    (by decide) (by decide) (by decide) (by decide) (by decide) (by decide) (by decide) (by decide)
  exact h.mpr (by decide)

/-- C6: a CPU read of $2007 returns the buffered byte when v < 0x3F00
and the freshly fetched byte when v >= 0x3F00, always refills the
buffer from the PPU bus at v, and then advances v by the PPUCTRL
increment; after writing $20 then $00 to $2006, two $2007 reads return
(second read) the byte at PPU address 0x2000 and leave v = 0x2002. -/
theorem ppudata_read_buffer_semantics :
    (∀ (σ : Type) (ops : MapperOps σ) (p : PPU σ),
       PPU.ReadCPURegister ops p 0x2007 = ppudataReadSpec ops p) ∧
    ((PPU.WriteCPURegister unitOps (PPU.WriteCPURegister unitOps ppuE3 0x2006 0x20)
        0x2006 0x00).vramAddress = 0x2000 ∧
     (PPU.ReadCPURegister unitOps
        (PPU.ReadCPURegister unitOps
          (PPU.WriteCPURegister unitOps (PPU.WriteCPURegister unitOps ppuE3 0x2006 0x20)
            0x2006 0x00) 0x2007).2 0x2007).1 =
       PPU.ppuRead unitOps
         (PPU.WriteCPURegister unitOps (PPU.WriteCPURegister unitOps ppuE3 0x2006 0x20)
           0x2006 0x00) 0x2000 ∧
     (PPU.ReadCPURegister unitOps
        (PPU.ReadCPURegister unitOps
          (PPU.WriteCPURegister unitOps (PPU.WriteCPURegister unitOps ppuE3 0x2006 0x20)
            0x2006 0x00) 0x2007).2 0x2007).2.vramAddress = 0x2002) := by
  refine ⟨fun σ ops p => read2007_eq_spec ops p, ?_, ?_, ?_⟩ <;> decide

/-- C7: palette-RAM addressing folds positions 16, 20, 24, 28 onto 0,
4, 8, 12 for both reads and writes: reads at $3F10/$3F14/$3F18/$3F1C
equal reads at $3F00/$3F04/$3F08/$3F0C, and writing B to $3F10 makes a
read of $3F00 return B. -/
theorem palette_mirror_read_write (ops : MapperOps μ) (p : PPU μ) (B : Nat) :
    PPU.ppuRead ops p 0x3F10 = PPU.ppuRead ops p 0x3F00 ∧
    PPU.ppuRead ops p 0x3F14 = PPU.ppuRead ops p 0x3F04 ∧
    PPU.ppuRead ops p 0x3F18 = PPU.ppuRead ops p 0x3F08 ∧
    PPU.ppuRead ops p 0x3F1C = PPU.ppuRead ops p 0x3F0C ∧
    PPU.ppuRead ops (PPU.ppuWrite ops p 0x3F10 B) 0x3F00 = B :=
  ⟨rfl, rfl, rfl, rfl, rfl⟩

/-- C8: after a 1-then-0 strobe write, the first 8 reads return the
button states in order A, B, Select, Start, Up, Down, Left, Right; the
9th and every later read returns 1; while strobe is held at 1, every
read returns the current A state and leaves the controller unchanged. -/
theorem controller_serial_protocol (c : Controller) :
    (∀ k, k < 8 → readValue (afterStrobe c) k = (if c.buttons k then 1 else 0)) ∧
    (∀ n, 8 ≤ n → readValue (afterStrobe c) n = 1) ∧
    (∀ d : Controller, d.strobe = true →
      Controller.Read d = ((if d.buttons 0 then 1 else 0), d)) := by
  refine ⟨?_, ?_, ?_⟩
  · intro k hk
    unfold readValue
    rw [afterStrobe_eq, readState_early _ (by simp) k (by simp; omega)]
    rw [read_value_lt8 _ (by simp) (by simpa using hk)]
    simp
  · intro n h8
    unfold readValue
    rw [afterStrobe_eq]
    obtain ⟨m, rfl⟩ : ∃ m, n = 8 + m := ⟨n - 8, by omega⟩
    have h8st : readState { c with strobe := false, index := 0 } 8 =
        { c with strobe := false, index := 8 } := by
      rw [readState_early _ (by simp) 8 (by simp)]
    have hsplit : readState { c with strobe := false, index := 0 } (8 + m) =
        readState (readState { c with strobe := false, index := 0 } 8) m := by
      unfold readState
      rw [Nat.add_comm, Function.iterate_add_apply]
    rw [hsplit, h8st]
    have h := readState_late ({ c with strobe := false, index := 8 } : Controller)
      (by simp) (by simp) (by simp) m
    exact read_value_ge8 _ h.1 h.2.2.1
  · intro d hd
    unfold Controller.Read
    rw [if_pos hd]

/-- Witness for `controller_serial_protocol` on the A-and-Start
controller of scenario E4: the 4th read returns 1 (Start), the 10th
read returns 1 (past the 8 buttons), and a strobed read returns A. -/
theorem controller_serial_protocol_witness :
    readValue (afterStrobe ctrlE4) 3 = 1 ∧
    readValue (afterStrobe ctrlE4) 9 = 1 ∧
    (Controller.Read { ctrlE4 with strobe := true }).1 = 1 := by
  refine ⟨?_, ?_, ?_⟩
  · have h := (controller_serial_protocol ctrlE4).1 3 (by decide)
    exact h.trans (by decide)
  · exact (controller_serial_protocol ctrlE4).2.1 9 (by decide)
  · have h := (controller_serial_protocol ctrlE4).2.2 { ctrlE4 with strobe := true } rfl
    rw [h]
    decide

/-- C9: an MMC1 write to $8000-$FFFF with bit 7 set resets the shift
register to 0b10000, zeroes the write count, and forces PRG mode 3; a
write with bit 7 clear shifts bit 0 in LSB-first, the 5th write
committing the assembled value to the register selected by bits 13-14
of the address; concretely, 0x80 then five 0x01 writes to $8000 commit
0x1F to control: mirroring 3 (horizontal), PRG mode 3, CHR mode 1. -/
theorem mmc1_shift_register_protocol :
    (∀ (m : Mapper1) (addr value : Nat), 0x8000 ≤ addr →
      (value &&& 0x80 ≠ 0 →
        Mapper1.WritePRG m addr value =
          { m with shiftRegister := 0x10, shiftCount := 0, prgMode := 3 }) ∧
      (value &&& 0x80 = 0 → m.shiftCount + 1 ≠ 5 →
        Mapper1.WritePRG m addr value =
          { m with shiftRegister := (m.shiftRegister >>> 1) ||| ((value &&& 1) <<< 4),
                   shiftCount := m.shiftCount + 1 }) ∧
      (value &&& 0x80 = 0 → m.shiftCount + 1 = 5 →
        Mapper1.WritePRG m addr value =
          { Mapper1.writeRegister
              { m with shiftRegister := (m.shiftRegister >>> 1) ||| ((value &&& 1) <<< 4),
                       shiftCount := 5 }
              addr ((m.shiftRegister >>> 1) ||| ((value &&& 1) <<< 4)) with
            shiftRegister := 0x10, shiftCount := 0 })) ∧
    (m1E5reset.shiftRegister = 0x10 ∧ m1E5reset.shiftCount = 0 ∧ m1E5reset.prgMode = 3 ∧
     m1E5done.mirroring = 3 ∧ m1E5done.prgMode = 3 ∧ m1E5done.chrMode = 1 ∧
     m1E5done.shiftRegister = 0x10 ∧ m1E5done.shiftCount = 0) := by
  refine ⟨mmc1_write_general, ?_, ?_, ?_, ?_, ?_, ?_, ?_, ?_⟩ <;> decide

/-- Witness for `mmc1_shift_register_protocol`: the reset write applied
to a fresh MMC1. -/
theorem mmc1_shift_register_protocol_witness :
    Mapper1.WritePRG (Mapper1.New 0) 0x8000 0x80 =
      { Mapper1.New 0 with shiftRegister := 0x10, shiftCount := 0, prgMode := 3 } :=
  (mmc1_shift_register_protocol.1 (Mapper1.New 0) 0x8000 0x80 (by decide)).1 (by decide)

/-- C10: each MMC3 `Scanline` call reloads the counter from the latch
(clearing the reload flag) when the counter is zero or a reload is
pending and decrements it otherwise, after which irq-pending rises
exactly when the counter is zero and IRQs are enabled; with latch 4,
reload requested and IRQs enabled, irq-pending is still false after 4
calls, becomes true on the 5th, and `ClearIRQ` clears it. -/
theorem mmc3_scanline_irq :
    (∀ m : Mapper4,
      (Mapper4.Scanline m).irqCounter =
        (if m.irqCounter = 0 ∨ m.irqReloadFlag = true then m.irqLatch else m.irqCounter - 1) ∧
      (Mapper4.Scanline m).irqReloadFlag =
        (if m.irqCounter = 0 ∨ m.irqReloadFlag = true then false else m.irqReloadFlag) ∧
      (Mapper4.Scanline m).irqEnabled = m.irqEnabled ∧
      (Mapper4.Scanline m).irqLatch = m.irqLatch ∧
      ((Mapper4.Scanline m).irqPending = true ↔
        (m.irqPending = true ∨
          ((if m.irqCounter = 0 ∨ m.irqReloadFlag = true then m.irqLatch
            else m.irqCounter - 1) = 0 ∧ m.irqEnabled = true)))) ∧
    (Mapper4.IRQPending ((Mapper4.Scanline)^[4] m4E6) = false ∧
     Mapper4.IRQPending ((Mapper4.Scanline)^[5] m4E6) = true ∧
     Mapper4.IRQPending (Mapper4.ClearIRQ ((Mapper4.Scanline)^[5] m4E6)) = false) := by
  refine ⟨mmc3_scanline_general, ?_, ?_, ?_⟩ <;> decide

end ClaimTheorems

end NESEmu
